import Mathlib

/-!
Shallow embedding of the colorise-backend anonymous-identity and quota core.

The primary program is the SQLite variant: the server in `src/unnamed/part_001`
together with the database layer in `src/src/db/` (`rate-limits.ts`,
`index.ts` sessions/users/events sections).  The repository also ships an older
in-memory variant (`src/unnamed/part_002`); its quota check is embedded
separately (suffix `Mem`) where the two differ.

Modelling conventions
* Wall-clock time is epoch milliseconds (`Nat`).  JavaScript `Date` civil-time
  accessors (`toDateString`, `getHours`, `setHours`) work in the server's local
  timezone; we model the timezone as a fixed offset `tzOffMs` (milliseconds
  east of UTC, `0 ≤ tzOffMs < msPerDay`), so local civil time of an instant
  `t` is `t + tzOffMs`.
* `toDateString()` returns one distinct string per local calendar day; string
  equality of two such values is equality of local day numbers, so
  `last_reset_date` is modelled as the local day number `(t + tzOffMs) / msPerDay`.
* `getHours()` is the local hour `((t + tzOffMs) / msPerHour) % 24`.
* SQL tables with `PRIMARY KEY user_id` (`rate_limits`) are modelled as
  functions `String → Option row`; tables where row multiplicity matters
  (`users`, `sessions`, `request_events`, `user_ips`) as lists, with SQL
  `INSERT` prepending and `UPDATE ... WHERE` mapping over matching rows.
* SQLite `REAL` (`average_processing_time`) is modelled as an exact rational.
* The non-null assertions `getRateLimit(userId)!` in the server are modelled
  by returning `Option`: `none` is the crash the assertion would raise.
-/

def msPerHour : Nat := 3600000

def msPerDay : Nat := 86400000

/-- A wall clock: the current epoch instant and the server's fixed timezone
offset (milliseconds east of UTC, less than one day). -/
structure Clock where
  nowMs : Nat
  tzOffMs : Nat
deriving Repr, DecidableEq

/-- Local calendar-day number of the clock's instant (JS `toDateString`,
injectively recoded as the day index). -/
def Clock.localDay (c : Clock) : Nat := (c.nowMs + c.tzOffMs) / msPerDay

/-- Local hour of the clock's instant (JS `getHours()`). -/
def Clock.localHour (c : Clock) : Nat := ((c.nowMs + c.tzOffMs) / msPerHour) % 24

/-- A rate_limits row (src/src/db/rate-limits.ts, interface RateLimit). -/
structure RateLimit where
  dailyRequests : Nat
  lastResetDate : Nat
  hourlyRequests : Nat
  lastResetHour : Nat
deriving Repr, DecidableEq

/-- A users row (src/src/db/rate-limits.ts, users section; schema part_000). -/
structure UserRow where
  userId : String
  deviceFingerprint : String
  createdAt : Nat
  lastSeen : Nat
  requestCount : Nat
  totalProcessingTime : Nat
  averageProcessingTime : Rat
deriving Repr, DecidableEq

/-- A sessions row (src/src/db/index.ts, interface Session). -/
structure SessionRow where
  sessionId : String
  userId : String
  createdAt : Nat
  ipAddress : String
  userAgent : String
  appVersion : String
deriving Repr, DecidableEq

/-- A request_events row (src/src/db/rate-limits.ts, interface RequestEvent).
`eventType` is the fixed string "colorise" at the only call site. -/
structure RequestEvent where
  userId : String
  eventType : String
  createdAt : Nat
  processingTime : Option Nat
  modelUsed : Option String
  ipAddress : Option String
  success : Bool
deriving Repr, DecidableEq

/-- A user_ips row (schema part_000): primary key (user_id, ip_address). -/
structure IpRow where
  userId : String
  ipAddress : String
  firstSeen : Nat
deriving Repr, DecidableEq

/-- The four durable relations plus the IP side table (schema in
src/unnamed/part_000). -/
structure DB where
  users : List UserRow
  sessions : List SessionRow
  events : List RequestEvent
  userIps : List IpRow
  rateLimits : String → Option RateLimit

/-- src/src/db/rate-limits.ts `getRateLimit`: SELECT the row for `userId`. -/
def getRateLimit (userId : String) (db : DB) : Option RateLimit :=
  db.rateLimits userId

/-- src/src/db/rate-limits.ts `initializeRateLimit`: INSERT OR IGNORE a zeroed
row stamped with the current local date and hour. -/
def initializeRateLimit (userId : String) (c : Clock) (db : DB) : DB :=
  match db.rateLimits userId with
  | some _ => db
  | none =>
      { db with rateLimits := fun u =>
          if u = userId then
            some { dailyRequests := 0, lastResetDate := c.localDay
                   hourlyRequests := 0, lastResetHour := c.localHour }
          else db.rateLimits u }

/-- SQL `UPDATE rate_limits ... WHERE user_id = ?`: apply `f` to the row for
`userId` if it exists (0 rows matched is a no-op). -/
def updateRateLimitRow (userId : String) (f : RateLimit → RateLimit) (db : DB) : DB :=
  { db with rateLimits := fun u =>
      if u = userId then (db.rateLimits u).map f else db.rateLimits u }

/-- src/src/db/rate-limits.ts `incrementRateLimit`: both counters + 1. -/
def incrementRateLimit (userId : String) (db : DB) : DB :=
  updateRateLimitRow userId
    (fun rl => { rl with dailyRequests := rl.dailyRequests + 1
                         hourlyRequests := rl.hourlyRequests + 1 }) db

/-- src/src/db/rate-limits.ts `resetDailyRateLimit`: daily_requests = 0 and
last_reset_date = today.  It does NOT touch hourly_requests or
last_reset_hour. -/
def resetDailyRateLimit (userId : String) (c : Clock) (db : DB) : DB :=
  updateRateLimitRow userId
    (fun rl => { rl with dailyRequests := 0, lastResetDate := c.localDay }) db

/-- src/src/db/rate-limits.ts `resetHourlyRateLimit`: hourly_requests = 0 and
last_reset_hour = current hour. -/
def resetHourlyRateLimit (userId : String) (c : Clock) (db : DB) : DB :=
  updateRateLimitRow userId
    (fun rl => { rl with hourlyRequests := 0, lastResetHour := c.localHour }) db

/-- src/unnamed/part_001 `getDailyLimit`: the constant 20. -/
def getDailyLimit (_userId : String) : Nat := 20

/-- src/unnamed/part_001 `getNextResetTime`: tomorrow's date with
`setHours(0,0,0,0)` — the first instant of the next LOCAL calendar day,
expressed as a UTC epoch instant (`toISOString`). -/
def getNextResetTime (c : Clock) : Nat :=
  (c.localDay + 1) * msPerDay - c.tzOffMs

/-- The first instant of the next UTC calendar day (what the spec calls
"next UTC midnight"). -/
def nextUtcMidnight (nowMs : Nat) : Nat :=
  (nowMs / msPerDay + 1) * msPerDay

/-- Outcome of `checkUserRateLimit` (the `{allowed, message, limits}` object):
either allowed, or a 429 with the reported reset instant. -/
inductive CheckResult where
  | allowed : CheckResult
  | dailyExceeded (resetAt : Nat) : CheckResult
  | hourlyExceeded (resetAt : Nat) : CheckResult
deriving Repr, DecidableEq

/-- src/unnamed/part_001 `checkUserRateLimit` (SQLite variant).  Returns the
database after the lazy resets together with the decision; `none` models the
crash of a failed `getRateLimit(userId)!` assertion. -/
def checkUserRateLimit (userId : String) (c : Clock) (db : DB) :
    Option (DB × CheckResult) :=
  let step0 : Option (DB × RateLimit) :=
    match getRateLimit userId db with
    | some rl => some (db, rl)
    | none =>
        let db := initializeRateLimit userId c db
        (getRateLimit userId db).map (fun rl => (db, rl))
  match step0 with
  | none => none
  | some (db, userLimits) =>
    let step1 : Option (DB × RateLimit) :=
      if userLimits.lastResetDate ≠ c.localDay then
        let db := resetDailyRateLimit userId c db
        (getRateLimit userId db).map (fun rl => (db, rl))
      else if userLimits.lastResetHour ≠ c.localHour then
        let db := resetHourlyRateLimit userId c db
        (getRateLimit userId db).map (fun rl => (db, rl))
      else some (db, userLimits)
    match step1 with
    | none => none
    | some (db, userLimits) =>
      let dailyLimit := getDailyLimit userId
      let hourlyLimit := max (dailyLimit / 4) 3
      if userLimits.dailyRequests ≥ dailyLimit then
        some (db, .dailyExceeded (getNextResetTime c))
      else if userLimits.hourlyRequests ≥ hourlyLimit then
        some (db, .hourlyExceeded (c.nowMs + 60 * 60 * 1000))
      else
        some (db, .allowed)

/-! ### users, sessions, events, user_ips operations (src/src/db) -/

/-- src/src/db/rate-limits.ts `getUser` (users section): SELECT the first row
matching `user_id` (the primary key makes it unique in runs of the program). -/
def getUser (userId : String) (db : DB) : Option UserRow :=
  db.users.find? (fun u => u.userId == userId)

/-- src/src/db/rate-limits.ts `createUser`: INSERT a fresh row; the schema
(part_000) defaults total/average processing time to 0. -/
def createUser (userId deviceFingerprint : String) (createdAt lastSeen : Nat)
    (requestCount : Nat) (db : DB) : DB :=
  { db with users :=
      { userId := userId, deviceFingerprint := deviceFingerprint
        createdAt := createdAt, lastSeen := lastSeen
        requestCount := requestCount
        totalProcessingTime := 0, averageProcessingTime := 0 } :: db.users }

/-- SQL `UPDATE users ... WHERE user_id = ?`: apply `f` to matching rows. -/
def updateUserRows (userId : String) (f : UserRow → UserRow) (db : DB) : DB :=
  { db with users := db.users.map (fun u => if u.userId == userId then f u else u) }

/-- src/src/db/rate-limits.ts `updateUserAfterRequest` (users section):
request_count + 1, last_seen = now, running total and average updated. -/
def dbUpdateUserAfterRequest (userId : String) (processingTime : Nat) (c : Clock)
    (db : DB) : DB :=
  updateUserRows userId (fun u =>
    { u with requestCount := u.requestCount + 1
             lastSeen := c.nowMs
             totalProcessingTime := u.totalProcessingTime + processingTime
             averageProcessingTime :=
               ((u.totalProcessingTime + processingTime : Nat) : Rat) /
                 ((u.requestCount + 1 : Nat) : Rat) }) db

/-- src/src/db/rate-limits.ts `updateUserLastSeen`: last_seen = now. -/
def updateUserLastSeen (userId : String) (c : Clock) (db : DB) : DB :=
  updateUserRows userId (fun u => { u with lastSeen := c.nowMs }) db

/-- src/src/db/rate-limits.ts `addUserIp`: INSERT OR IGNORE on the
(user_id, ip_address) primary key. -/
def addUserIp (userId ipAddress : String) (c : Clock) (db : DB) : DB :=
  if db.userIps.any (fun r => r.userId == userId && r.ipAddress == ipAddress) then db
  else { db with userIps :=
    { userId := userId, ipAddress := ipAddress, firstSeen := c.nowMs } :: db.userIps }

/-- src/src/db/index.ts `createSession`: INSERT a session row. -/
def createSession (s : SessionRow) (db : DB) : DB :=
  { db with sessions := s :: db.sessions }

/-- src/src/db/index.ts `getUserSessions`: the identity's sessions ordered by
created_at DESC, LIMIT `limit` (default 5 at every call). -/
def getUserSessions (userId : String) (limit : Nat) (db : DB) : List SessionRow :=
  (((db.sessions.filter (fun s => s.userId == userId)).mergeSort
      (fun a b => b.createdAt ≤ a.createdAt)).take limit)

/-- src/src/db/index.ts `getSessionCount`: COUNT of the identity's sessions. -/
def getSessionCount (userId : String) (db : DB) : Nat :=
  (db.sessions.filter (fun s => s.userId == userId)).length

/-- src/src/db/index.ts `cleanOldSessions`: DELETE sessions with
created_at < olderThan (ISO-string comparison is chronological). -/
def cleanOldSessions (olderThan : Nat) (db : DB) : DB :=
  { db with sessions := db.sessions.filter (fun s => olderThan ≤ s.createdAt) }

/-- src/src/db/rate-limits.ts `logEvent` (events section): INSERT one row into
the append-only request_events table. -/
def logEvent (e : RequestEvent) (db : DB) : DB :=
  { db with events := e :: db.events }

/-- src/src/db/rate-limits.ts `cleanOldEvents`: DELETE events with
created_at < olderThan. -/
def cleanOldEvents (olderThan : Nat) (db : DB) : DB :=
  { db with events := db.events.filter (fun e => olderThan ≤ e.createdAt) }

/-- src/unnamed/part_001 cleanup interval (line 821): drop sessions older than
7 days and events older than 90 days (truncated subtraction covers the first
week after the epoch, where JS would produce a negative cutoff no row predates). -/
def cleanupSweep (c : Clock) (db : DB) : DB :=
  let db := cleanOldSessions (c.nowMs - 7 * 24 * 60 * 60 * 1000) db
  cleanOldEvents (c.nowMs - 90 * 24 * 60 * 60 * 1000) db

/-! ### The authentication handler (src/unnamed/part_001, /api/auth/anonymous) -/

/-- The limits object returned to clients: daily limit, remaining (a JS
subtraction, so an integer), and the reported reset instant. -/
structure QuotaSnapshot where
  daily : Nat
  remaining : Int
  resetAt : Nat
deriving Repr, DecidableEq

/-- Successful authentication payload: the JWT claims' identity/session
binding and timestamps plus the quota snapshot. -/
structure AuthOk where
  userId : String
  sessionId : String
  iat : Nat
  exp : Nat
  limits : QuotaSnapshot
deriving Repr, DecidableEq

/-- Authentication outcome: 400 on a missing fingerprint, else 200. -/
inductive AuthResult where
  | missingFields : AuthResult
  | ok (r : AuthOk) : AuthResult
deriving Repr, DecidableEq

/-- src/unnamed/part_001 lines 90-175, the /api/auth/anonymous handler.
`deviceInfo = ""` models a missing/falsy `device_info`.  The fresh UUID and
request headers are parameters.  The fingerprint-mismatch branch only logs. -/
def authAnonymous (deviceInfo : String) (appVersion : Option String)
    (clientIP userAgent sessionId : String) (c : Clock) (db : DB) :
    DB × AuthResult :=
  if deviceInfo = "" then (db, .missingFields)
  else
    let userId := deviceInfo
    let db :=
      match getUser userId db with
      | none =>
          let db := createUser userId deviceInfo c.nowMs c.nowMs 0 db
          addUserIp userId clientIP c db
      | some _ =>
          let db := updateUserLastSeen userId c db
          addUserIp userId clientIP c db
    let db := createSession
      { sessionId := sessionId, userId := userId, createdAt := c.nowMs
        ipAddress := clientIP, userAgent := userAgent
        appVersion := appVersion.getD "unknown" } db
    let db := initializeRateLimit userId c db
    let userLimits := getRateLimit userId db
    let dailyLimit := getDailyLimit userId
    (db, .ok
      { userId := userId, sessionId := sessionId
        iat := c.nowMs / 1000, exp := c.nowMs / 1000 + 24 * 60 * 60
        limits :=
          { daily := dailyLimit
            remaining := (dailyLimit : Int) -
              ((userLimits.map (fun rl => rl.dailyRequests)).getD 0 : Nat)
            resetAt := getNextResetTime c } })

/-! ### The protected colorise handler (src/unnamed/part_001, lines 218-298)

The JWT and rate-limit middlewares run before the body below; the body is
modelled from the point where the request is already authenticated and was
allowed by `checkUserRateLimit`.  The external collaborator
(`processImageWithReplicate`) is an input: it either succeeds with a result
URL, total time and model id, or throws with an error message. -/

/-- Outcome of the external image-restoration collaborator. -/
inductive ProcOutcome where
  | success (resultUrl : String) (totalTime : Nat) (modelUsed : String) : ProcOutcome
  | failure (message : String) : ProcOutcome
deriving Repr, DecidableEq

/-- JS `String.prototype.includes` on lower-cased text, over character lists. -/
def charsInclude (hay needle : List Char) : Bool :=
  match hay with
  | [] => needle.isEmpty
  | _ :: t => needle.isPrefixOf hay || charsInclude t needle

/-- The handler's `error.message?.toLowerCase()`. -/
def lowerChars (s : String) : List Char :=
  s.toList.map Char.toLower

/-- Response of the colorise handler: 200 with result and limits, or the four
classified error responses (400 image, 429, 400 format, 408, 500). -/
inductive ColoriseResponse where
  | ok (resultUrl : String) (processingTime : Nat) (modelUsed : String)
      (limits : QuotaSnapshot) : ColoriseResponse
  | imageRequired : ColoriseResponse
  | upstreamBusy : ColoriseResponse
  | invalidFormat : ColoriseResponse
  | timedOut : ColoriseResponse
  | processingFailed : ColoriseResponse
deriving Repr, DecidableEq

/-- src/unnamed/part_001 `updateUserAfterRequest` (server helper, line 798):
increment the rate-limit counters and update the user stats row. -/
def updateUserAfterRequest (userId : String) (processingTime : Nat) (c : Clock)
    (db : DB) : DB :=
  dbUpdateUserAfterRequest userId processingTime c (incrementRateLimit userId db)

/-- src/unnamed/part_001 lines 221-297: the colorise handler body.  On
collaborator success it updates counters, logs a success UsageEvent and
returns the result with a fresh limits snapshot; on a thrown collaborator
error it classifies the message text and returns an error response, touching
no state.  The catch branch logs no UsageEvent. -/
def coloriseHandler (userId clientIP : String) (image : Option String)
    (outcome : ProcOutcome) (c : Clock) (db : DB) : DB × ColoriseResponse :=
  match image with
  | none => (db, .imageRequired)
  | some _ =>
    match outcome with
    | .success url totalTime modelUsed =>
        let db := updateUserAfterRequest userId totalTime c db
        let db := logEvent
          { userId := userId, eventType := "colorise", createdAt := c.nowMs
            processingTime := some totalTime, modelUsed := some modelUsed
            ipAddress := some clientIP, success := true } db
        let userLimits := getRateLimit userId db
        let dailyLimit := getDailyLimit userId
        (db, .ok url totalTime modelUsed
          { daily := dailyLimit
            remaining := (dailyLimit : Int) -
              ((userLimits.map (fun rl => rl.dailyRequests)).getD 0 : Nat)
            resetAt := getNextResetTime c })
    | .failure message =>
        let m := lowerChars message
        if charsInclude m "rate limit".toList || charsInclude m "quota".toList then
          (db, .upstreamBusy)
        else if charsInclude m "invalid".toList || charsInclude m "format".toList then
          (db, .invalidFormat)
        else if charsInclude m "timeout".toList || charsInclude m "timed out".toList then
          (db, .timedOut)
        else
          (db, .processingFailed)

/-! ### The in-memory variant's quota check (src/unnamed/part_002)

The older server keeps rate limits in an in-process Map from user id to
RateLimit and mutates the looked-up object in place; the map is modelled as a
function and the mutation as storing the updated record. -/

/-- src/unnamed/part_002 `initializeRateLimit` (line 558). -/
def initializeRateLimitMem (userId : String) (c : Clock)
    (rateLimits : String → Option RateLimit) : String → Option RateLimit :=
  match rateLimits userId with
  | some _ => rateLimits
  | none => fun u =>
      if u = userId then
        some { dailyRequests := 0, lastResetDate := c.localDay
               hourlyRequests := 0, lastResetHour := c.localHour }
      else rateLimits u

/-- src/unnamed/part_002 `checkUserRateLimit` (line 569): on a day rollover it
zeroes BOTH counters and restamps both markers (lines 582-586); on an hour
rollover within the same day it zeroes only the hourly counter. -/
def checkUserRateLimitMem (userId : String) (c : Clock)
    (rateLimits : String → Option RateLimit) :
    Option ((String → Option RateLimit) × CheckResult) :=
  let step0 : Option ((String → Option RateLimit) × RateLimit) :=
    match rateLimits userId with
    | some rl => some (rateLimits, rl)
    | none =>
        let rateLimits := initializeRateLimitMem userId c rateLimits
        (rateLimits userId).map (fun rl => (rateLimits, rl))
  match step0 with
  | none => none
  | some (rateLimits, userLimits) =>
    let (rateLimits, userLimits) :=
      if userLimits.lastResetDate ≠ c.localDay then
        let rl : RateLimit :=
          { dailyRequests := 0, lastResetDate := c.localDay
            hourlyRequests := 0, lastResetHour := c.localHour }
        (fun u => if u = userId then some rl else rateLimits u, rl)
      else if userLimits.lastResetHour ≠ c.localHour then
        let rl : RateLimit :=
          { userLimits with hourlyRequests := 0, lastResetHour := c.localHour }
        (fun u => if u = userId then some rl else rateLimits u, rl)
      else (rateLimits, userLimits)
    let dailyLimit := getDailyLimit userId
    let hourlyLimit := max (dailyLimit / 4) 3
    if userLimits.dailyRequests ≥ dailyLimit then
      some (rateLimits, .dailyExceeded (getNextResetTime c))
    else if userLimits.hourlyRequests ≥ hourlyLimit then
      some (rateLimits, .hourlyExceeded (c.nowMs + 60 * 60 * 1000))
    else
      some (rateLimits, .allowed)

/-! ### Proof-side factoring of checkUserRateLimit

The two phases of src/unnamed/part_001 `checkUserRateLimit` (lazy reset, then
limit comparison) factored out so the claims can be stated against the row the
comparison actually reads.  These repeat the source's branches verbatim. -/

/-- The row `checkUserRateLimit` compares against after the lazy-reset phase. -/
def lazyResetRow (userId : String) (c : Clock) (db : DB) : RateLimit :=
  match getRateLimit userId db with
  | none =>
      { dailyRequests := 0, lastResetDate := c.localDay
        hourlyRequests := 0, lastResetHour := c.localHour }
  | some rl =>
      if rl.lastResetDate ≠ c.localDay then
        { rl with dailyRequests := 0, lastResetDate := c.localDay }
      else if rl.lastResetHour ≠ c.localHour then
        { rl with hourlyRequests := 0, lastResetHour := c.localHour }
      else rl

/-- The database state after the lazy-reset phase of `checkUserRateLimit`. -/
def lazyResetDb (userId : String) (c : Clock) (db : DB) : DB :=
  match getRateLimit userId db with
  | none => initializeRateLimit userId c db
  | some rl =>
      if rl.lastResetDate ≠ c.localDay then resetDailyRateLimit userId c db
      else if rl.lastResetHour ≠ c.localHour then resetHourlyRateLimit userId c db
      else db

/-- The limit-comparison tail of `checkUserRateLimit`. -/
def limitDecision (userId : String) (c : Clock) (rl : RateLimit) : CheckResult :=
  let dailyLimit := getDailyLimit userId
  let hourlyLimit := max (dailyLimit / 4) 3
  if rl.dailyRequests ≥ dailyLimit then .dailyExceeded (getNextResetTime c)
  else if rl.hourlyRequests ≥ hourlyLimit then
    .hourlyExceeded (c.nowMs + 60 * 60 * 1000)
  else .allowed

/-- The resetAt field of an authentication response, if it succeeded. -/
def resetAtOf : AuthResult → Option Nat
  | .missingFields => none
  | .ok r => some r.limits.resetAt

/-! ### Serialized quota transitions for the daily-cap invariant

The per-identity operations the running server performs on quota state, each
at an arbitrary wall-clock instant: a login (which at most initializes the
row), a bare quota check (lazy resets), and a protected request, whose
handler body runs only after a check that returned allowed and consumes quota
only when the collaborator succeeds. -/

inductive QuotaStep (userId : String) : DB → DB → Prop where
  | auth (deviceInfo : String) (appVersion : Option String)
      (clientIP userAgent sessionId : String) (c : Clock) (db : DB) :
      QuotaStep userId db
        (authAnonymous deviceInfo appVersion clientIP userAgent sessionId c db).1
  | check (c : Clock) (db db' : DB) (res : CheckResult) :
      checkUserRateLimit userId c db = some (db', res) →
      QuotaStep userId db db'
  | request (c c' : Clock) (db db' : DB) (clientIP : String)
      (image : Option String) (outcome : ProcOutcome) :
      checkUserRateLimit userId c db = some (db', .allowed) →
      QuotaStep userId db (coloriseHandler userId clientIP image outcome c' db').1
  | sweep (c : Clock) (db : DB) :
      QuotaStep userId db (cleanupSweep c db)

/-- States reachable from a store holding no quota row for the identity. -/
inductive QuotaReachable (userId : String) : DB → Prop where
  | init (db : DB) : getRateLimit userId db = none → QuotaReachable userId db
  | step (db db' : DB) : QuotaReachable userId db → QuotaStep userId db db' →
      QuotaReachable userId db'

/-! ### Concrete stores and clocks used by witnesses and counterexamples -/

/-- The empty store. -/
def emptyDB : DB := { users := [], sessions := [], events := [], userIps := []
                      rateLimits := fun _ => none }

/-- A store holding only a quota row for identity "dev-A". -/
def dbWithRL (rl : RateLimit) : DB :=
  { emptyDB with rateLimits := fun u => if u = "dev-A" then some rl else none }

/-- A store with a users row and a quota row for identity "dev-A". -/
def dbWithUserRL (u : UserRow) (rl : RateLimit) : DB :=
  { emptyDB with users := [u]
                 rateLimits := fun v => if v = "dev-A" then some rl else none }

/-- A sample users row for identity "dev-A". -/
def userRowA : UserRow :=
  { userId := "dev-A", deviceFingerprint := "dev-A", createdAt := 0, lastSeen := 0
    requestCount := 3, totalProcessingTime := 100, averageProcessingTime := 100 / 3 }

/-- Day 1 at 08:10 local time, UTC server. -/
def clockDay1 : Clock := { nowMs := 86400000 + 8 * 3600000 + 600000, tzOffMs := 0 }

/-- The single-login store behind the C8 witness: one authentication by
"dev-A" against the empty store at the epoch. -/
def dbAfterOneAuth : DB :=
  (authAnonymous "dev-A" none "203.0.113.7" "ua" "sess-1" { nowMs := 0, tzOffMs := 0 }
    emptyDB).1

/-- First login of "fp-1" against the empty store (C5 witness). -/
def authTwice1 : DB :=
  (authAnonymous "fp-1" (some "1.0") "203.0.113.7" "ua" "s1"
    { nowMs := 0, tzOffMs := 0 } emptyDB).1

/-- Second login of "fp-1", one second later (C5 witness). -/
def authTwice2 : DB :=
  (authAnonymous "fp-1" none "198.51.100.2" "ua2" "s2"
    { nowMs := 1000, tzOffMs := 0 } authTwice1).1

/-! ### Supporting lemmas -/

theorem getRateLimit_updateRateLimitRow_self (userId : String)
    (f : RateLimit → RateLimit) (db : DB) :
    getRateLimit userId (updateRateLimitRow userId f db) =
      (getRateLimit userId db).map f := by
  simp [getRateLimit, updateRateLimitRow]

theorem getRateLimit_initializeRateLimit_self (userId : String) (c : Clock)
    (db : DB) :
    getRateLimit userId (initializeRateLimit userId c db) =
      some ((getRateLimit userId db).getD
        { dailyRequests := 0, lastResetDate := c.localDay
          hourlyRequests := 0, lastResetHour := c.localHour }) := by
  unfold getRateLimit initializeRateLimit
  cases h : db.rateLimits userId <;> simp [getRateLimit, h]

theorem getRateLimit_lazyResetDb (userId : String) (c : Clock) (db : DB) :
    getRateLimit userId (lazyResetDb userId c db) =
      some (lazyResetRow userId c db) := by
  unfold lazyResetDb lazyResetRow
  cases h : getRateLimit userId db with
  | none => simp [getRateLimit_initializeRateLimit_self, h]
  | some rl =>
      by_cases hd : rl.lastResetDate = c.localDay
      · by_cases hh : rl.lastResetHour = c.localHour
        · simp [h, hd, hh]
        · simp [h, hd, hh, resetHourlyRateLimit, getRateLimit_updateRateLimitRow_self]
      · simp [h, hd, resetDailyRateLimit, getRateLimit_updateRateLimitRow_self]

theorem checkUserRateLimit_eq (userId : String) (c : Clock) (db : DB) :
    checkUserRateLimit userId c db =
      some (lazyResetDb userId c db,
        limitDecision userId c (lazyResetRow userId c db)) := by
  unfold checkUserRateLimit lazyResetDb lazyResetRow limitDecision
  cases h : getRateLimit userId db with
  | none =>
      simp [h, getRateLimit_initializeRateLimit_self]
      split_ifs <;> rfl
  | some rl =>
      by_cases hd : rl.lastResetDate = c.localDay
      · by_cases hh : rl.lastResetHour = c.localHour
        · simp [h, hd, hh]
          split_ifs <;> rfl
        · simp [h, hd, hh, resetHourlyRateLimit, getRateLimit_updateRateLimitRow_self]
          split_ifs <;> rfl
      · simp [h, hd, resetDailyRateLimit, getRateLimit_updateRateLimitRow_self]
        split_ifs <;> rfl

theorem rateLimits_createUser (a b : String) (x y n : Nat) (db : DB) :
    (createUser a b x y n db).rateLimits = db.rateLimits := rfl

theorem rateLimits_updateUserRows (uid : String) (f : UserRow → UserRow) (db : DB) :
    (updateUserRows uid f db).rateLimits = db.rateLimits := rfl

theorem rateLimits_addUserIp (uid ip : String) (c : Clock) (db : DB) :
    (addUserIp uid ip c db).rateLimits = db.rateLimits := by
  unfold addUserIp; split <;> rfl

theorem rateLimits_createSession (s : SessionRow) (db : DB) :
    (createSession s db).rateLimits = db.rateLimits := rfl

theorem rateLimits_logEvent (e : RequestEvent) (db : DB) :
    (logEvent e db).rateLimits = db.rateLimits := rfl

theorem users_initializeRateLimit (uid : String) (c : Clock) (db : DB) :
    (initializeRateLimit uid c db).users = db.users := by
  unfold initializeRateLimit; cases db.rateLimits uid <;> rfl

theorem users_addUserIp (uid ip : String) (c : Clock) (db : DB) :
    (addUserIp uid ip c db).users = db.users := by
  unfold addUserIp; split <;> rfl

theorem users_createSession (s : SessionRow) (db : DB) :
    (createSession s db).users = db.users := rfl

theorem users_logEvent (e : RequestEvent) (db : DB) :
    (logEvent e db).users = db.users := rfl

theorem users_updateRateLimitRow (uid : String) (f : RateLimit → RateLimit) (db : DB) :
    (updateRateLimitRow uid f db).users = db.users := rfl

theorem sessions_initializeRateLimit (uid : String) (c : Clock) (db : DB) :
    (initializeRateLimit uid c db).sessions = db.sessions := by
  unfold initializeRateLimit; cases db.rateLimits uid <;> rfl

theorem sessions_addUserIp (uid ip : String) (c : Clock) (db : DB) :
    (addUserIp uid ip c db).sessions = db.sessions := by
  unfold addUserIp; split <;> rfl

theorem sessions_createUser (a b : String) (x y n : Nat) (db : DB) :
    (createUser a b x y n db).sessions = db.sessions := rfl

theorem sessions_updateUserRows (uid : String) (f : UserRow → UserRow) (db : DB) :
    (updateUserRows uid f db).sessions = db.sessions := rfl

theorem getUser_eq_of_users (uid : String) (db1 db2 : DB)
    (h : db1.users = db2.users) : getUser uid db1 = getUser uid db2 := by
  unfold getUser; rw [h]

theorem find?_userId_map (uid : String) (f : UserRow → UserRow)
    (hf : ∀ u, (f u).userId = u.userId) (l : List UserRow) :
    (l.map (fun u => if u.userId == uid then f u else u)).find?
        (fun u => u.userId == uid) =
      (l.find? (fun u => u.userId == uid)).map f := by
  induction l with
  | nil => rfl
  | cons a t ih =>
      by_cases h : a.userId = uid
      · simp [h, hf]
      · simp only [List.map_cons]
        rw [if_neg (by simpa using h)]
        rw [List.find?_cons_of_neg _ (by simpa using h),
          List.find?_cons_of_neg _ (by simpa using h), ih]

theorem getUser_updateUserRows_self (uid : String) (f : UserRow → UserRow)
    (hf : ∀ u, (f u).userId = u.userId) (db : DB) :
    getUser uid (updateUserRows uid f db) = (getUser uid db).map f := by
  unfold getUser updateUserRows
  exact find?_userId_map uid f hf db.users

theorem length_filter_userId_map (uid : String) (f : UserRow → UserRow)
    (hf : ∀ u, (f u).userId = u.userId) (l : List UserRow) :
    ((l.map (fun u => if u.userId == uid then f u else u)).filter
        (fun u => u.userId == uid)).length =
      (l.filter (fun u => u.userId == uid)).length := by
  induction l with
  | nil => rfl
  | cons a t ih =>
      by_cases h : a.userId = uid
      · simp [h, hf, List.filter_cons]
        simpa using ih
      · simp only [List.map_cons]
        rw [if_neg (by simpa using h)]
        simp [List.filter_cons, (by simpa using h : (a.userId == uid) = false)]
        simpa using ih

/-! ### Claim theorems -/

/-- C2: after the lazy reset, the quota check fails DailyLimitExceeded exactly
when the (post-reset) dailyRequests is at least 20; otherwise it fails
HourlyLimitExceeded exactly when hourlyRequests is at least
hourlyLimit = max(floor(20 / 4), 3) = 5; otherwise the request is allowed,
with the daily comparison evaluated first. -/
theorem quota_check_decision (userId : String) (c : Clock) (db db' : DB)
    (res : CheckResult) (rl : RateLimit)
    (hrun : checkUserRateLimit userId c db = some (db', res))
    (hrow : getRateLimit userId db' = some rl) :
    max (getDailyLimit userId / 4) 3 = 5 ∧
    ((∃ t, res = CheckResult.dailyExceeded t) ↔ 20 ≤ rl.dailyRequests) ∧
    ((∃ t, res = CheckResult.hourlyExceeded t) ↔
      rl.dailyRequests < 20 ∧ 5 ≤ rl.hourlyRequests) ∧
    (res = CheckResult.allowed ↔
      rl.dailyRequests < 20 ∧ rl.hourlyRequests < 5) := by
  rw [checkUserRateLimit_eq] at hrun
  simp only [Option.some.injEq, Prod.mk.injEq] at hrun
  obtain ⟨hdb, hres⟩ := hrun
  subst hdb
  rw [getRateLimit_lazyResetDb, Option.some.injEq] at hrow
  subst hrow
  subst hres
  refine ⟨by simp [getDailyLimit], ?_, ?_, ?_⟩ <;>
  · by_cases h1 : 20 ≤ (lazyResetRow userId c db).dailyRequests <;>
      by_cases h2 : 5 ≤ (lazyResetRow userId c db).hourlyRequests <;>
      simp [limitDecision, getDailyLimit, h1, h2] <;> omega

/-- Witness for C2 at a store whose "dev-A" row is already at the daily cap. -/
theorem quota_check_decision_witness :
    max (getDailyLimit "dev-A" / 4) 3 = 5 ∧
    ((∃ t, CheckResult.dailyExceeded 86400000 = CheckResult.dailyExceeded t) ↔
      20 ≤ (20 : Nat)) ∧
    ((∃ t, CheckResult.dailyExceeded 86400000 = CheckResult.hourlyExceeded t) ↔
      (20 : Nat) < 20 ∧ 5 ≤ (0 : Nat)) ∧
    (CheckResult.dailyExceeded 86400000 = CheckResult.allowed ↔
      (20 : Nat) < 20 ∧ (0 : Nat) < 5) :=
  quota_check_decision "dev-A" { nowMs := 0, tzOffMs := 0 }
    (dbWithRL { dailyRequests := 20, lastResetDate := 0
                hourlyRequests := 0, lastResetHour := 0 })
    (dbWithRL { dailyRequests := 20, lastResetDate := 0
                hourlyRequests := 0, lastResetHour := 0 })
    (CheckResult.dailyExceeded 86400000)
    { dailyRequests := 20, lastResetDate := 0
      hourlyRequests := 0, lastResetHour := 0 }
    rfl rfl

/-- C6: when the stored row carries today's date but a different hour marker,
the check resets only the hourly counter and restamps only the hour: the
post-check store is exactly a resetHourlyRateLimit of the old one, and the
row keeps its dailyRequests and lastResetDate. -/
theorem hourly_rollover_resets_only_hourly (userId : String) (c : Clock)
    (db : DB) (rl : RateLimit) (hrow : getRateLimit userId db = some rl)
    (hdate : rl.lastResetDate = c.localDay)
    (hhour : rl.lastResetHour ≠ c.localHour) :
    ∃ res, checkUserRateLimit userId c db =
        some (resetHourlyRateLimit userId c db, res) ∧
      getRateLimit userId (resetHourlyRateLimit userId c db) =
        some { rl with hourlyRequests := 0, lastResetHour := c.localHour } := by
  refine ⟨limitDecision userId c
    { rl with hourlyRequests := 0, lastResetHour := c.localHour }, ?_, ?_⟩
  · rw [checkUserRateLimit_eq]
    unfold lazyResetDb lazyResetRow
    simp [hrow, hdate, hhour]
  · rw [resetHourlyRateLimit, getRateLimit_updateRateLimitRow_self, hrow]
    rfl

/-- Witness for C6: same local day, hour marker 3 against current hour 8. -/
theorem hourly_rollover_resets_only_hourly_witness :
    ∃ res, checkUserRateLimit "dev-A" clockDay1
        (dbWithRL { dailyRequests := 7, lastResetDate := 1
                    hourlyRequests := 5, lastResetHour := 3 }) =
        some (resetHourlyRateLimit "dev-A" clockDay1
          (dbWithRL { dailyRequests := 7, lastResetDate := 1
                      hourlyRequests := 5, lastResetHour := 3 }), res) ∧
      getRateLimit "dev-A" (resetHourlyRateLimit "dev-A" clockDay1
        (dbWithRL { dailyRequests := 7, lastResetDate := 1
                    hourlyRequests := 5, lastResetHour := 3 })) =
        some { dailyRequests := 7, lastResetDate := 1
               hourlyRequests := 0, lastResetHour := 8 } :=
  hourly_rollover_resets_only_hourly "dev-A" clockDay1
    (dbWithRL { dailyRequests := 7, lastResetDate := 1
                hourlyRequests := 5, lastResetHour := 3 })
    { dailyRequests := 7, lastResetDate := 1
      hourlyRequests := 5, lastResetHour := 3 }
    rfl rfl (by decide)

/-- C10: a check for an identity with no quota row first inserts a zeroed row
stamped with the current local date and hour, then allows the request. -/
theorem first_check_initializes_and_allows (userId : String) (c : Clock)
    (db : DB) (h : getRateLimit userId db = none) :
    checkUserRateLimit userId c db =
        some (initializeRateLimit userId c db, CheckResult.allowed) ∧
      getRateLimit userId (initializeRateLimit userId c db) =
        some { dailyRequests := 0, lastResetDate := c.localDay
               hourlyRequests := 0, lastResetHour := c.localHour } := by
  constructor
  · rw [checkUserRateLimit_eq]
    unfold lazyResetDb lazyResetRow
    simp [h, limitDecision, getDailyLimit]
  · rw [getRateLimit_initializeRateLimit_self, h]
    rfl

/-- Witness for C10 at the empty store. -/
theorem first_check_initializes_and_allows_witness :
    checkUserRateLimit "dev-A" clockDay1 emptyDB =
        some (initializeRateLimit "dev-A" clockDay1 emptyDB,
          CheckResult.allowed) ∧
      getRateLimit "dev-A" (initializeRateLimit "dev-A" clockDay1 emptyDB) =
        some { dailyRequests := 0, lastResetDate := 1
               hourlyRequests := 0, lastResetHour := 8 } :=
  first_check_initializes_and_allows "dev-A" clockDay1 emptyDB rfl

/-- C1 (code evaluated at the failing input): a check on local day 1, hour 8,
for a row last reset on day 0 with hourlyRequests = 5 and lastResetHour = 23.
The day-rollover branch calls resetDailyRateLimit, which zeroes only the
daily counter and restamps only the date; hourlyRequests stays 5 and
lastResetHour stays 23, and the check then refuses the request as
HourlyLimitExceeded instead of resetting the hourly counter to 0. -/
theorem daily_rollover_keeps_hourly :
    (checkUserRateLimit "dev-A" clockDay1
        (dbWithRL { dailyRequests := 15, lastResetDate := 0
                    hourlyRequests := 5, lastResetHour := 23 })).map
        (fun p => (getRateLimit "dev-A" p.1, p.2)) =
      some (some { dailyRequests := 0, lastResetDate := 1
                   hourlyRequests := 5, lastResetHour := 23 },
        CheckResult.hourlyExceeded 119400000) := by
  rfl

/-- The in-memory variant (src/unnamed/part_002) at the same failing input
resets BOTH counters and both markers and allows the request, agreeing with
the spec; the SQLite variant's behavior above is the regression. -/
theorem checkUserRateLimitMem_day_rollover_resets_both :
    (checkUserRateLimitMem "dev-A" clockDay1
        (fun u => if u = "dev-A" then
          some { dailyRequests := 15, lastResetDate := 0
                 hourlyRequests := 5, lastResetHour := 23 } else none)).map
        (fun p => (p.1 "dev-A", p.2)) =
      some (some { dailyRequests := 0, lastResetDate := 1
                   hourlyRequests := 0, lastResetHour := 8 },
        CheckResult.allowed) := by
  rfl

theorem requestCount_dbUpdateUserAfterRequest (uid : String) (pt : Nat)
    (c : Clock) (db : DB) :
    (getUser uid (dbUpdateUserAfterRequest uid pt c db)).map
        (fun v => v.requestCount) =
      (getUser uid db).map (fun v => v.requestCount + 1) := by
  unfold dbUpdateUserAfterRequest
  rw [getUser_updateUserRows_self]
  · cases getUser uid db <;> rfl
  · exact fun v => rfl

/-- C3 counterexample: a processing attempt on which the collaborator fails
appends NO UsageEvent — the event log is still empty after the failed
attempt, refuting "appended ... both when the external collaborator succeeds
and when it fails". -/
theorem colorise_failure_appends_no_event :
    ((coloriseHandler "dev-A" "203.0.113.7" (some "img")
        (ProcOutcome.failure "boom") clockDay1
        (dbWithUserRL userRowA
          { dailyRequests := 7, lastResetDate := 1
            hourlyRequests := 2, lastResetHour := 8 })).1.events).length = 0 := by
  rfl

/-- C3 amended: a UsageEvent (success = true) is appended on every successful
processing attempt; on a collaborator failure no UsageEvent is appended (the
catch branch leaves the event log unchanged). -/
theorem usage_event_on_success_only (userId clientIP img url modelUsed msg : String)
    (totalTime : Nat) (c : Clock) (db : DB) :
    ((coloriseHandler userId clientIP (some img)
        (ProcOutcome.success url totalTime modelUsed) c db).1.events =
      { userId := userId, eventType := "colorise", createdAt := c.nowMs
        processingTime := some totalTime, modelUsed := some modelUsed
        ipAddress := some clientIP, success := true } :: db.events) ∧
    ((coloriseHandler userId clientIP (some img)
        (ProcOutcome.failure msg) c db).1.events = db.events) := by
  constructor
  · rfl
  · simp only [coloriseHandler]
    split_ifs <;> rfl

/-- C4: on a successful processing attempt the handler increments both quota
counters by exactly 1 and the identity's requestCount by exactly 1; on a
collaborator failure the store is returned unchanged. -/
theorem consume_only_on_success (userId clientIP img url modelUsed msg : String)
    (totalTime : Nat) (c : Clock) (db : DB) (rl : RateLimit) (u : UserRow)
    (hrl : getRateLimit userId db = some rl)
    (hu : getUser userId db = some u) :
    getRateLimit userId
        (coloriseHandler userId clientIP (some img)
          (ProcOutcome.success url totalTime modelUsed) c db).1 =
      some { rl with dailyRequests := rl.dailyRequests + 1
                     hourlyRequests := rl.hourlyRequests + 1 } ∧
    (getUser userId
        (coloriseHandler userId clientIP (some img)
          (ProcOutcome.success url totalTime modelUsed) c db).1).map
        (fun v => v.requestCount) = some (u.requestCount + 1) ∧
    (coloriseHandler userId clientIP (some img)
        (ProcOutcome.failure msg) c db).1 = db := by
  refine ⟨?_, ?_, ?_⟩
  · show getRateLimit userId (incrementRateLimit userId db) = _
    rw [incrementRateLimit, getRateLimit_updateRateLimitRow_self, hrl]
    rfl
  · have h1 : getUser userId
        (coloriseHandler userId clientIP (some img)
          (ProcOutcome.success url totalTime modelUsed) c db).1 =
        getUser userId (dbUpdateUserAfterRequest userId totalTime c
          (incrementRateLimit userId db)) :=
      getUser_eq_of_users _ _ _ (users_logEvent _ _)
    rw [h1, requestCount_dbUpdateUserAfterRequest]
    have h2 : getUser userId (incrementRateLimit userId db) = some u := by
      rw [show getUser userId (incrementRateLimit userId db) =
        getUser userId db from getUser_eq_of_users _ _ _ (by rfl)]
      exact hu
    rw [h2]
    rfl
  · simp only [coloriseHandler]
    split_ifs <;> rfl

/-- Witness for C4 at a store holding a users row and a quota row for
"dev-A". -/
theorem consume_only_on_success_witness :
    getRateLimit "dev-A"
        (coloriseHandler "dev-A" "203.0.113.7" (some "img")
          (ProcOutcome.success "https://r" 5000 "m1") clockDay1
          (dbWithUserRL userRowA
            { dailyRequests := 7, lastResetDate := 1
              hourlyRequests := 2, lastResetHour := 8 })).1 =
      some { dailyRequests := 8, lastResetDate := 1
             hourlyRequests := 3, lastResetHour := 8 } ∧
    (getUser "dev-A"
        (coloriseHandler "dev-A" "203.0.113.7" (some "img")
          (ProcOutcome.success "https://r" 5000 "m1") clockDay1
          (dbWithUserRL userRowA
            { dailyRequests := 7, lastResetDate := 1
              hourlyRequests := 2, lastResetHour := 8 })).1).map
        (fun v => v.requestCount) = some 4 ∧
    (coloriseHandler "dev-A" "203.0.113.7" (some "img")
        (ProcOutcome.failure "fail") clockDay1
        (dbWithUserRL userRowA
          { dailyRequests := 7, lastResetDate := 1
            hourlyRequests := 2, lastResetHour := 8 })).1 =
      dbWithUserRL userRowA
        { dailyRequests := 7, lastResetDate := 1
          hourlyRequests := 2, lastResetHour := 8 } :=
  consume_only_on_success "dev-A" "203.0.113.7" "img" "https://r" "m1" "fail"
    5000 clockDay1
    (dbWithUserRL userRowA
      { dailyRequests := 7, lastResetDate := 1
        hourlyRequests := 2, lastResetHour := 8 })
    { dailyRequests := 7, lastResetDate := 1
      hourlyRequests := 2, lastResetHour := 8 }
    userRowA rfl rfl

/-- C9: the recent-sessions view returns at most 5 sessions however many
rows are stored; a login only adds a session row (prior rows all persist,
none are deleted); and the sweep deletes exactly the session rows whose
created_at is before the cutoff. -/
theorem sessions_view_bounded (userId : String) (db : DB) (cutoff : Nat) :
    (getUserSessions userId 5 db).length ≤ 5 ∧
    (∀ fp av ip ua sid c,
      List.Sublist db.sessions
        (authAnonymous fp av ip ua sid c db).1.sessions) ∧
    (cleanOldSessions cutoff db).sessions =
      db.sessions.filter (fun s => cutoff ≤ s.createdAt) := by
  refine ⟨?_, ?_, rfl⟩
  · unfold getUserSessions
    rw [List.length_take]
    exact Nat.min_le_left _ _
  · intro fp av ip ua sid c
    by_cases hfp : fp = ""
    · simp [authAnonymous, hfp]
    · have hsess : (authAnonymous fp av ip ua sid c db).1.sessions =
          { sessionId := sid, userId := fp, createdAt := c.nowMs
            ipAddress := ip, userAgent := ua
            appVersion := av.getD "unknown" } :: db.sessions := by
        unfold authAnonymous
        rw [if_neg hfp]
        cases hu : getUser fp db <;>
          simp [hu, sessions_initializeRateLimit, createSession,
            sessions_addUserIp, sessions_createUser, sessions_updateUserRows,
            updateUserLastSeen]
      rw [hsess]
      exact List.sublist_cons_self _ _

theorem users_authAnonymous_new (fp : String) (av : Option String)
    (ip ua sid : String) (c : Clock) (db : DB) (hfp : fp ≠ "")
    (hu : getUser fp db = none) :
    (authAnonymous fp av ip ua sid c db).1.users =
      (createUser fp fp c.nowMs c.nowMs 0 db).users := by
  unfold authAnonymous
  rw [if_neg hfp]
  simp [hu, users_initializeRateLimit, users_createSession, users_addUserIp]

theorem users_authAnonymous_existing (fp : String) (av : Option String)
    (ip ua sid : String) (c : Clock) (db : DB) (u : UserRow) (hfp : fp ≠ "")
    (hu : getUser fp db = some u) :
    (authAnonymous fp av ip ua sid c db).1.users =
      (updateUserLastSeen fp c db).users := by
  unfold authAnonymous
  rw [if_neg hfp]
  simp [hu, users_initializeRateLimit, users_createSession, users_addUserIp]

theorem getUser_authAnonymous_self (fp : String) (av : Option String)
    (ip ua sid : String) (c : Clock) (db : DB) (hfp : fp ≠ "") :
    ∃ u, getUser fp (authAnonymous fp av ip ua sid c db).1 = some u := by
  cases hu : getUser fp db with
  | none =>
      refine ⟨{ userId := fp, deviceFingerprint := fp, createdAt := c.nowMs
                lastSeen := c.nowMs, requestCount := 0
                totalProcessingTime := 0, averageProcessingTime := 0 }, ?_⟩
      rw [getUser_eq_of_users _ _ _
        (users_authAnonymous_new fp av ip ua sid c db hfp hu)]
      simp [getUser, createUser]
  | some u =>
      refine ⟨{ u with lastSeen := c.nowMs }, ?_⟩
      rw [getUser_eq_of_users _ _ _
        (users_authAnonymous_existing fp av ip ua sid c db u hfp hu)]
      unfold updateUserLastSeen
      rw [getUser_updateUserRows_self]
      · rw [hu]
        rfl
      · exact fun v => rfl

/-- C5: authenticating a second time with the same device fingerprint creates
no second Identity row (the count of users rows for that fingerprint is
unchanged), and the identity's createdAt and requestCount after the second
authentication equal their values after the first. -/
theorem auth_idempotent (fp : String) (av1 av2 : Option String)
    (ip1 ip2 ua1 ua2 s1 s2 : String) (c1 c2 : Clock) (db : DB)
    (hfp : fp ≠ "") :
    (((authAnonymous fp av2 ip2 ua2 s2 c2
          (authAnonymous fp av1 ip1 ua1 s1 c1 db).1).1.users.filter
        (fun u => u.userId == fp)).length =
      ((authAnonymous fp av1 ip1 ua1 s1 c1 db).1.users.filter
        (fun u => u.userId == fp)).length) ∧
    ((getUser fp (authAnonymous fp av2 ip2 ua2 s2 c2
          (authAnonymous fp av1 ip1 ua1 s1 c1 db).1).1).map
        (fun u => u.createdAt) =
      (getUser fp (authAnonymous fp av1 ip1 ua1 s1 c1 db).1).map
        (fun u => u.createdAt)) ∧
    ((getUser fp (authAnonymous fp av2 ip2 ua2 s2 c2
          (authAnonymous fp av1 ip1 ua1 s1 c1 db).1).1).map
        (fun u => u.requestCount) =
      (getUser fp (authAnonymous fp av1 ip1 ua1 s1 c1 db).1).map
        (fun u => u.requestCount)) := by
  obtain ⟨u1, hu1⟩ := getUser_authAnonymous_self fp av1 ip1 ua1 s1 c1 db hfp
  have husers2 := users_authAnonymous_existing fp av2 ip2 ua2 s2 c2
    (authAnonymous fp av1 ip1 ua1 s1 c1 db).1 u1 hfp hu1
  have hgu2 : getUser fp (authAnonymous fp av2 ip2 ua2 s2 c2
      (authAnonymous fp av1 ip1 ua1 s1 c1 db).1).1 =
      (getUser fp (authAnonymous fp av1 ip1 ua1 s1 c1 db).1).map
        (fun u => { u with lastSeen := c2.nowMs }) := by
    rw [getUser_eq_of_users _ _ _ husers2]
    unfold updateUserLastSeen
    rw [getUser_updateUserRows_self]
    exact fun v => rfl
  refine ⟨?_, ?_, ?_⟩
  · rw [husers2]
    unfold updateUserLastSeen updateUserRows
    exact length_filter_userId_map fp
      (fun v => { v with lastSeen := c2.nowMs }) (fun v => rfl) _
  · rw [hgu2, hu1]
    rfl
  · rw [hgu2, hu1]
    rfl

/-- Witness for C5: two logins of "fp-1" against the empty store. -/
theorem auth_idempotent_witness :
    ((authTwice2.users.filter (fun u => u.userId == "fp-1")).length =
      (authTwice1.users.filter (fun u => u.userId == "fp-1")).length) ∧
    ((getUser "fp-1" authTwice2).map (fun u => u.createdAt) =
      (getUser "fp-1" authTwice1).map (fun u => u.createdAt)) ∧
    ((getUser "fp-1" authTwice2).map (fun u => u.requestCount) =
      (getUser "fp-1" authTwice1).map (fun u => u.requestCount)) :=
  auth_idempotent "fp-1" (some "1.0") none "203.0.113.7" "198.51.100.2"
    "ua" "ua2" "s1" "s2" { nowMs := 0, tzOffMs := 0 }
    { nowMs := 1000, tzOffMs := 0 } emptyDB (by decide)

/-- C7 counterexample: getNextResetTime aligns to the server's LOCAL midnight
(JS setHours works in local time).  On a server at UTC+5 the quota snapshot
returned by authentication at the epoch instant reports resetAt =
68400000 (19:00 UTC, the next local midnight), not the next UTC midnight
86400000. -/
theorem reset_at_not_next_utc_midnight :
    resetAtOf (authAnonymous "dev-A" none "203.0.113.7" "ua" "sess-1"
        { nowMs := 0, tzOffMs := 18000000 } emptyDB).2 = some 68400000 ∧
    nextUtcMidnight 0 = 86400000 ∧ (68400000 : Nat) ≠ 86400000 :=
  ⟨rfl, rfl, by decide⟩

/-- C7 amended: the resetAt in the authentication quota snapshot and the
resetAt reported with DailyLimitExceeded are both getNextResetTime, the first
instant after now at which the server's LOCAL civil time is midnight; it
equals the next UTC midnight exactly when the server's UTC offset is zero
(e.g. a server running in UTC). -/
theorem reset_at_next_local_midnight (c : Clock) (hoff : c.tzOffMs < msPerDay) :
    (∀ fp av ip ua sid db, fp ≠ "" →
      resetAtOf (authAnonymous fp av ip ua sid c db).2 =
        some (getNextResetTime c)) ∧
    (∀ userId db db' t, checkUserRateLimit userId c db =
        some (db', CheckResult.dailyExceeded t) → t = getNextResetTime c) ∧
    c.nowMs < getNextResetTime c ∧
    (getNextResetTime c + c.tzOffMs) % msPerDay = 0 ∧
    (∀ t, c.nowMs < t → t < getNextResetTime c →
      (t + c.tzOffMs) % msPerDay ≠ 0) ∧
    (c.tzOffMs = 0 → getNextResetTime c = nextUtcMidnight c.nowMs) := by
  refine ⟨?_, ?_, ?_, ?_, ?_, ?_⟩
  · intro fp av ip ua sid db hfp
    unfold authAnonymous
    rw [if_neg hfp]
    cases getUser fp db <;> rfl
  · intro userId db db' t h
    rw [checkUserRateLimit_eq] at h
    simp only [Option.some.injEq, Prod.mk.injEq] at h
    obtain ⟨-, hres⟩ := h
    simp only [limitDecision] at hres
    split_ifs at hres <;> simp_all
  · simp only [getNextResetTime, Clock.localDay, msPerDay] at *
    omega
  · simp only [getNextResetTime, Clock.localDay, msPerDay] at *
    omega
  · intro t h1 h2
    simp only [getNextResetTime, Clock.localDay, msPerDay] at *
    omega
  · intro h0
    simp only [getNextResetTime, nextUtcMidnight, Clock.localDay, msPerDay,
      h0] at *
    omega

/-- Witness for C7 (amended) at a UTC server clock at the epoch. -/
theorem reset_at_next_local_midnight_witness :
    (∀ fp av ip ua sid db, fp ≠ "" →
      resetAtOf (authAnonymous fp av ip ua sid
          { nowMs := 0, tzOffMs := 0 } db).2 =
        some (getNextResetTime { nowMs := 0, tzOffMs := 0 })) ∧
    (∀ userId db db' t, checkUserRateLimit userId
        { nowMs := 0, tzOffMs := 0 } db =
        some (db', CheckResult.dailyExceeded t) →
      t = getNextResetTime { nowMs := 0, tzOffMs := 0 }) ∧
    (0 : Nat) < getNextResetTime { nowMs := 0, tzOffMs := 0 } ∧
    (getNextResetTime { nowMs := 0, tzOffMs := 0 } + 0) % msPerDay = 0 ∧
    (∀ t, (0 : Nat) < t → t < getNextResetTime { nowMs := 0, tzOffMs := 0 } →
      (t + 0) % msPerDay ≠ 0) ∧
    ((0 : Nat) = 0 → getNextResetTime { nowMs := 0, tzOffMs := 0 } =
      nextUtcMidnight 0) :=
  reset_at_next_local_midnight { nowMs := 0, tzOffMs := 0 } (by decide)

theorem limitDecision_allowed (userId : String) (c : Clock) (rl : RateLimit)
    (h : limitDecision userId c rl = CheckResult.allowed) :
    rl.dailyRequests < 20 ∧ rl.hourlyRequests < 5 := by
  simp only [limitDecision, getDailyLimit] at h
  split_ifs at h with h1 h2
  have h5 : (20 : Nat) / 4 ⊔ 3 = 5 := by decide
  rw [h5] at h2
  omega

theorem getRateLimit_initializeRateLimit_cases (uid uid' : String) (c : Clock)
    (db : DB) :
    getRateLimit uid (initializeRateLimit uid' c db) = getRateLimit uid db ∨
    getRateLimit uid (initializeRateLimit uid' c db) =
      some { dailyRequests := 0, lastResetDate := c.localDay
             hourlyRequests := 0, lastResetHour := c.localHour } := by
  unfold getRateLimit initializeRateLimit
  cases hx : db.rateLimits uid' with
  | some _ => exact Or.inl rfl
  | none =>
      by_cases huu : uid = uid'
      · exact Or.inr (by simp [huu])
      · exact Or.inl (by simp [huu])

theorem lazyResetRow_daily_le (uid : String) (c : Clock) (db : DB)
    (h : ∀ rl, getRateLimit uid db = some rl → rl.dailyRequests ≤ 20) :
    (lazyResetRow uid c db).dailyRequests ≤ 20 := by
  unfold lazyResetRow
  cases hx : getRateLimit uid db with
  | none => simp
  | some rl =>
      have hle := h rl hx
      show (if rl.lastResetDate ≠ c.localDay then
          { rl with dailyRequests := 0, lastResetDate := c.localDay }
        else if rl.lastResetHour ≠ c.localHour then
          { rl with hourlyRequests := 0, lastResetHour := c.localHour }
        else rl).dailyRequests ≤ 20
      split_ifs <;> simp_all

theorem dailycap_check (uid : String) (c : Clock) (db db' : DB)
    (res : CheckResult)
    (hchk : checkUserRateLimit uid c db = some (db', res))
    (h : ∀ rl, getRateLimit uid db = some rl → rl.dailyRequests ≤ 20) :
    ∀ rl, getRateLimit uid db' = some rl → rl.dailyRequests ≤ 20 := by
  rw [checkUserRateLimit_eq] at hchk
  simp only [Option.some.injEq, Prod.mk.injEq] at hchk
  obtain ⟨hdb, -⟩ := hchk
  subst hdb
  intro rl hrl
  rw [getRateLimit_lazyResetDb, Option.some.injEq] at hrl
  subst hrl
  exact lazyResetRow_daily_le uid c db h

theorem check_allowed_daily_lt (uid : String) (c : Clock) (db db' : DB)
    (hchk : checkUserRateLimit uid c db = some (db', CheckResult.allowed)) :
    ∀ rl, getRateLimit uid db' = some rl → rl.dailyRequests < 20 := by
  rw [checkUserRateLimit_eq] at hchk
  simp only [Option.some.injEq, Prod.mk.injEq] at hchk
  obtain ⟨hdb, hres⟩ := hchk
  subst hdb
  intro rl hrl
  rw [getRateLimit_lazyResetDb, Option.some.injEq] at hrl
  subst hrl
  exact (limitDecision_allowed uid c _ hres).1

theorem dailycap_auth (uid deviceInfo : String) (av : Option String)
    (ip ua sid : String) (c : Clock) (db : DB)
    (h : ∀ rl, getRateLimit uid db = some rl → rl.dailyRequests ≤ 20) :
    ∀ rl, getRateLimit uid
        (authAnonymous deviceInfo av ip ua sid c db).1 = some rl →
      rl.dailyRequests ≤ 20 := by
  intro rl hrl
  unfold authAnonymous at hrl
  by_cases hfp : deviceInfo = ""
  · rw [if_pos hfp] at hrl
    exact h rl hrl
  · rw [if_neg hfp] at hrl
    cases hu : getUser deviceInfo db with
    | none =>
        simp only [hu] at hrl
        rcases getRateLimit_initializeRateLimit_cases uid deviceInfo c
            (createSession
              { sessionId := sid, userId := deviceInfo, createdAt := c.nowMs
                ipAddress := ip, userAgent := ua
                appVersion := av.getD "unknown" }
              (addUserIp deviceInfo ip c
                (createUser deviceInfo deviceInfo c.nowMs c.nowMs 0 db)))
          with hcase | hcase
        · rw [hcase] at hrl
          unfold getRateLimit at hrl
          rw [rateLimits_createSession, rateLimits_addUserIp,
            rateLimits_createUser] at hrl
          exact h rl hrl
        · rw [hcase, Option.some.injEq] at hrl
          subst hrl
          exact Nat.zero_le 20
    | some u0 =>
        simp only [hu] at hrl
        rcases getRateLimit_initializeRateLimit_cases uid deviceInfo c
            (createSession
              { sessionId := sid, userId := deviceInfo, createdAt := c.nowMs
                ipAddress := ip, userAgent := ua
                appVersion := av.getD "unknown" }
              (addUserIp deviceInfo ip c (updateUserLastSeen deviceInfo c db)))
          with hcase | hcase
        · rw [hcase] at hrl
          unfold getRateLimit at hrl
          rw [rateLimits_createSession, rateLimits_addUserIp] at hrl
          exact h rl hrl
        · rw [hcase, Option.some.injEq] at hrl
          subst hrl
          exact Nat.zero_le 20

theorem dailycap_request (uid ip : String) (image : Option String)
    (outcome : ProcOutcome) (c : Clock) (db : DB)
    (h : ∀ rl, getRateLimit uid db = some rl → rl.dailyRequests < 20) :
    ∀ rl, getRateLimit uid
        (coloriseHandler uid ip image outcome c db).1 = some rl →
      rl.dailyRequests ≤ 20 := by
  intro rl hrl
  cases image with
  | none => exact Nat.le_of_lt (h rl hrl)
  | some img =>
      cases outcome with
      | success url t m =>
          have hrl2 : getRateLimit uid (incrementRateLimit uid db) = some rl := hrl
          rw [incrementRateLimit, getRateLimit_updateRateLimitRow_self] at hrl2
          cases hx : getRateLimit uid db with
          | none => rw [hx] at hrl2; cases hrl2
          | some rl0 =>
              rw [hx] at hrl2
              simp only [Option.map_some', Option.some.injEq] at hrl2
              subst hrl2
              have h0 := h rl0 hx
              show rl0.dailyRequests + 1 ≤ 20
              omega
      | failure msg =>
          have heq : (coloriseHandler uid ip (some img)
              (ProcOutcome.failure msg) c db).1 = db := by
            simp only [coloriseHandler]
            split_ifs <;> rfl
          rw [heq] at hrl
          exact Nat.le_of_lt (h rl hrl)

/-- C8: in every store reachable by serialized logins, quota checks, sweeps,
and protected requests (whose handler runs only after a check that allowed
the request and consumes only on collaborator success), the identity's
dailyRequests never exceeds 20. -/
theorem daily_cap_invariant (userId : String) (db : DB)
    (hreach : QuotaReachable userId db) :
    ∀ rl, getRateLimit userId db = some rl → rl.dailyRequests ≤ 20 := by
  induction hreach with
  | init db0 h =>
      intro rl hrl
      rw [h] at hrl
      cases hrl
  | step db0 db1 hr hstep ih =>
      cases hstep with
      | auth deviceInfo av ip ua sid c dbx =>
          exact dailycap_auth userId deviceInfo av ip ua sid c db0 ih
      | check c dbx dbx2 res hchk =>
          exact dailycap_check userId c db0 db1 res hchk ih
      | request c c2 dbx dbx2 clientIP image outcome hchk =>
          exact dailycap_request userId clientIP image outcome c2 dbx2
            (check_allowed_daily_lt userId c db0 dbx2 hchk)
      | sweep c dbx =>
          intro rl hrl
          exact ih rl hrl

/-- Witness for C8: after one login of "dev-A" the store is reachable and the
row holds a zero daily count. -/
theorem daily_cap_invariant_witness :
    ({ dailyRequests := 0, lastResetDate := 0, hourlyRequests := 0
       lastResetHour := 0 } : RateLimit).dailyRequests ≤ 20 :=
  daily_cap_invariant "dev-A" dbAfterOneAuth
    (QuotaReachable.step emptyDB dbAfterOneAuth
      (QuotaReachable.init emptyDB rfl)
      (QuotaStep.auth "dev-A" none "203.0.113.7" "ua" "sess-1"
        { nowMs := 0, tzOffMs := 0 } emptyDB))
    { dailyRequests := 0, lastResetDate := 0, hourlyRequests := 0
      lastResetHour := 0 } rfl
